import Mathlib

/-!
Verification of the `auth-rs` crate: a username/password authentication
scheme built on the `argon2` crate.

The development shallowly embeds the crate's two relevant modules:

* `src/password.rs` — the `PasswordAuthExt` trait with `hash_password` and
  `check_password`, thin wrappers around the external `argon2` crate;
* `src/manage.rs` — the user-creation handler `create`, its error type
  `Error` and the error-to-HTTP-response mapping `into_response`.

The external `argon2` crate is not part of this repository; it is modelled
as an abstract interface `Argon2Model` (hashing, PHC-string serialisation,
parsing and verification), and theorems that depend on the library's
documented behaviour take that behaviour as pointwise hypotheses.
Randomness (`SaltString::generate(&mut OsRng)`) is modelled by passing the
drawn salt as an explicit parameter.  Rust `&mut self` receivers become
state-passing: a function mutating the record returns the updated record.
Byte strings (`&[u8]`) are modelled as `List Nat` via `strBytes`
(code points; the encoding is injective, which is all the code relies on).
Logging (`log::error!` etc.) is a side effect with no caller-visible
outcome and is omitted.
-/

/-- The error enum `argon2::password_hash::Error` of the external
`password-hash` crate (payloads of its variants are never inspected by
this repository and are omitted).  The `Password` variant is the
library's signal for a legitimate credential mismatch. -/
inductive PwhError where
  | Algorithm
  | B64Encoding
  | Crypto
  | OutputSize
  | ParamNameDuplicated
  | ParamNameInvalid
  | ParamValueInvalid
  | ParamsMaxExceeded
  | Password
  | PhcStringField
  | PhcStringTrailingData
  | SaltInvalid
  | Version
  deriving DecidableEq

/-- A salt value as drawn by `SaltString::generate(&mut OsRng)`.  The draw
itself is random; the embedding passes the drawn value explicitly. -/
abbrev SaltString := Nat

/-- `str::as_bytes` — the byte view of a string, modelled by code points
(an injective encoding, which is the only property the code uses). -/
def strBytes (s : String) : List Nat := s.data.map Char.toNat

/-- Abstract model of the external `argon2` crate as used by this
repository: `Argon2::hash_password` produces a parsed hash value, whose
`to_string` is the self-describing PHC string; `PasswordHash::new` parses
a PHC string back; `Argon2::verify_password` checks an attempt against a
parsed hash, failing with `PwhError.Password` on a mismatch. -/
structure Argon2Model where
  Hash : Type
  hash_password : List Nat → SaltString → Except PwhError Hash
  to_string : Hash → String
  new_hash : String → Except PwhError Hash
  verify_password : List Nat → Hash → Except PwhError Unit

/-- A minimal implementor of the repository's record traits: `UserInfo`
(`name()`, `password()`, `update_password()`) from `src/spec.rs` and
`PasswordAuth` (`password()`, `password_mut()`) from `src/password.rs`. -/
structure UserRecord where
  name : String
  password : String
  deriving DecidableEq

/-- The error enum `Error` of `src/password.rs`. -/
inductive Password.Error where
  | HashCompute (err : PwhError)
  | HashParse (err : PwhError)
  | HashVerify (err : PwhError)
  deriving DecidableEq

/-- `PasswordAuthExt::hash_password` from `src/password.rs`: hash the
record's current password with a fresh salt and overwrite the password
field with the PHC string; on a hashing error the record is returned
unchanged together with `Error::HashCompute`. -/
def PasswordAuthExt.hash_password (m : Argon2Model) (salt : SaltString)
    (self : UserRecord) : UserRecord × Except Password.Error Unit :=
  match m.hash_password (strBytes self.password) salt with
  | .ok pwd => ({ self with password := m.to_string pwd }, .ok ())
  | .error err => (self, .error (.HashCompute err))

/-- `PasswordAuthExt::check_password` from `src/password.rs`: parse the
stored PHC string (`Error::HashParse` on failure), then verify the
attempt: `Ok(true)` on success, `Ok(false)` on the library's `Password`
(mismatch) error, `Error::HashVerify` on any other verification error. -/
def PasswordAuthExt.check_password (m : Argon2Model) (self : UserRecord)
    (attempt : List Nat) : Except Password.Error Bool :=
  match m.new_hash self.password with
  | .error err => .error (.HashParse err)
  | .ok hash =>
    match m.verify_password attempt hash with
    | .ok _ => .ok true
    | .error PwhError.Password => .ok false
    | .error err => .error (.HashVerify err)

/-- Modelled from the spec: the `ErrorReply` wire struct is imported by
`src/manage.rs` from `crate::spec` but its definition is absent from the
source tree; the spec fixes it to a stable string identifier plus a
human-readable message, matching the literal `ErrorReply { id, message }`
construction sites in `src/manage.rs`. -/
structure ErrorReply where
  id : String
  message : String
  deriving DecidableEq

/-- One hexadecimal digit, lower case, as emitted by `serde_json`. -/
def hexDigit (n : Nat) : Char :=
  if n < 10 then Char.ofNat (48 + n) else Char.ofNat (87 + n)

/-- JSON string escaping as performed by `serde_json::to_string`. -/
def jsonEscapeChar (c : Char) : String :=
  if c = Char.ofNat 34 then "\\\""
  else if c = Char.ofNat 92 then "\\\\"
  else if c = Char.ofNat 10 then "\\n"
  else if c = Char.ofNat 13 then "\\r"
  else if c = Char.ofNat 9 then "\\t"
  else if c = Char.ofNat 8 then "\\b"
  else if c = Char.ofNat 12 then "\\f"
  else if c.toNat < 32 then
    "\\u00" ++ String.mk [hexDigit (c.toNat / 16), hexDigit (c.toNat % 16)]
  else String.mk [c]

/-- JSON string escaping lifted to whole strings. -/
def jsonEscape (s : String) : String := String.join (s.data.map jsonEscapeChar)

/-- `serde_json::to_string(&ErrorReply { id, message })`, with serde's
derive emitting the fields in declaration order. -/
def ErrorReply.toJson (r : ErrorReply) : String :=
  "\x7b\"id\":\"" ++ jsonEscape r.id ++ "\",\"message\":\"" ++
    jsonEscape r.message ++ "\"\x7d"

/-- `warp::reply::Response`, reduced to the parts the handler sets: the
HTTP status code and the body string. -/
structure Response where
  status : Nat
  body : String
  deriving DecidableEq

/-- `StatusCode::INTERNAL_SERVER_ERROR.as_u16()`. -/
def StatusCode.INTERNAL_SERVER_ERROR : Nat := 500

/-- `StatusCode::CONFLICT.as_u16()`. -/
def StatusCode.CONFLICT : Nat := 409

/-- The error enum `Error` of `src/manage.rs`.  `E` stands for the boxed
backend connector error `Box<dyn error::Error>` carried (but never
inspected) by `ConnectorUserExists`. -/
inductive Manage.Error (E : Type) where
  | ConnectorUserExists (user : String) (err : E)
  | PasswordHash (err : PwhError)
  | UserExists (name : String)

/-- A single-quote character, written via its code point. -/
def quoteChar : String := String.mk [Char.ofNat 39]

/-- The message of the conflict reply in `src/manage.rs`:
`format!("A user with name '{name}' already exists")`. -/
def userExistsMessage (name : String) : String :=
  "A user with name " ++ quoteChar ++ name ++ quoteChar ++ " already exists"

/-- `Error::into_response` from `src/manage.rs`: connector and hashing
faults collapse to a 500 response whose body is the fixed
`internal-error` reply (the error value is logged server-side only and
does not reach the body); `UserExists` becomes a 409 response with the
`user-exists` reply naming the conflicting user. -/
def Manage.Error.into_response {E : Type} : Manage.Error E → Response
  | .ConnectorUserExists _ _ =>
      ⟨StatusCode.INTERNAL_SERVER_ERROR,
        (ErrorReply.mk "internal-error" "An internal error has occurred").toJson⟩
  | .PasswordHash _ =>
      ⟨StatusCode.INTERNAL_SERVER_ERROR,
        (ErrorReply.mk "internal-error" "An internal error has occurred").toJson⟩
  | .UserExists name =>
      ⟨StatusCode.CONFLICT,
        (ErrorReply.mk "user-exists" (userExistsMessage name)).toJson⟩

/-- The `AuthConnector` trait of `src/spec.rs` with error type `E`.
`user_exists` is declared to return true iff a user with the name exists.
`insert_user` is declared in `src/spec.rs` without a return type (the
declaration is syntactically incomplete); its result type is modelled from
the spec: `insert(record) -> Result<(), BackendError>`. -/
structure AuthConnector (E : Type) where
  user_exists : String → Except E Bool
  insert_user : UserRecord → Except E Unit

/-- The `AuthContext` trait of `src/spec.rs`: provides the backend
connector. -/
structure AuthContext (E : Type) where
  auth_connector : AuthConnector E

/-- The value `create` returns: either an error converted through
`into_response`, or the source's final `Ok(())` — a unit value standing
where a `Response` is expected (the function body under
`/* Step 3. Insert into DB and return */` performs no insertion and is an
ill-typed stub in the source). -/
inductive CreateOutcome where
  | response (r : Response)
  | done
  deriving DecidableEq

/-- `create` from `src/manage.rs`, as written: ask the connector whether
the name exists; on `Ok(true)` proceed, on `Ok(false)` reply with the
`UserExists` conflict response, on `Err` reply with the
`ConnectorUserExists` internal response; then hash the password with a
fresh salt (internal response on failure), overwrite the record's
password field with the PHC string, and end in the source's `Ok(())`
stub.  `insert_user` is never called.  The function never rejects, so the
`Result<Response, Rejection>` wrapper is omitted. -/
def Manage.create {E : Type} (m : Argon2Model) (context : AuthContext E)
    (salt : SaltString) (info : UserRecord) : UserRecord × CreateOutcome :=
  let conn := context.auth_connector
  match conn.user_exists info.name with
  | .ok true =>
    match m.hash_password (strBytes info.password) salt with
    | .ok pwd =>
        ({ info with password := m.to_string pwd }, CreateOutcome.done)
    | .error err =>
        (info, .response (Manage.Error.PasswordHash (E := E) err).into_response)
  | .ok false =>
      (info, .response (Manage.Error.UserExists (E := E) info.name).into_response)
  | .error err =>
      (info, .response (Manage.Error.ConnectorUserExists info.name err).into_response)

/-! ### Concrete instantiations used to evaluate the definitions

A small executable stand-in for the `argon2` crate, used to evaluate the
repository's wrappers on concrete inputs.  A parsed hash is the pair of
the hashed byte string and the salt; its PHC-style rendering is
`"$" ++ bytes ++ "$" ++ salt`, with the salt in unary so distinct salts
render distinctly. -/

/-- Splits a character list at its first dollar sign. -/
def splitDollar : List Char → Option (List Char × List Char)
  | [] => none
  | c :: cs =>
    if c = Char.ofNat 36 then some ([], cs)
    else
      match splitDollar cs with
      | some (a, b) => some (c :: a, b)
      | none => none

/-- Toy PHC rendering: `"$" ++ bytes ++ "$" ++ unary salt`. -/
def toyToString (h : List Nat × Nat) : String :=
  String.mk (Char.ofNat 36 :: h.1.map Char.ofNat) ++
    String.mk (Char.ofNat 36 :: List.replicate h.2 (Char.ofNat 120))

/-- Toy PHC parsing, inverting `toyToString` on its range and failing
with `PhcStringField` elsewhere. -/
def toyParseHash (s : String) : Except PwhError (List Nat × Nat) :=
  match s.data with
  | [] => .error PwhError.PhcStringField
  | c :: rest =>
    if c = Char.ofNat 36 then
      match splitDollar rest with
      | some (p, saltPart) =>
        if saltPart.all (fun d => d = Char.ofNat 120) then
          .ok (p.map Char.toNat, saltPart.length)
        else .error PwhError.PhcStringField
      | none => .error PwhError.PhcStringField
    else .error PwhError.PhcStringField

/-- The toy argon2 stand-in: hashing records the byte string and salt,
verification compares the attempt with the recorded bytes. -/
def toyModel : Argon2Model where
  Hash := List Nat × Nat
  hash_password := fun p s => .ok (p, s)
  to_string := toyToString
  new_hash := toyParseHash
  verify_password := fun attempt h =>
    if attempt = h.1 then .ok () else .error PwhError.Password

/-- A variant of the toy stand-in whose hashing step always fails. -/
def failModel : Argon2Model where
  Hash := List Nat × Nat
  hash_password := fun _ _ => .error PwhError.Crypto
  to_string := toyToString
  new_hash := toyParseHash
  verify_password := fun attempt h =>
    if attempt = h.1 then .ok () else .error PwhError.Password

/-- A variant of the toy stand-in whose verification step fails with a
fault distinct from a mismatch. -/
def faultyVerifyModel : Argon2Model where
  Hash := List Nat × Nat
  hash_password := fun p s => .ok (p, s)
  to_string := toyToString
  new_hash := toyParseHash
  verify_password := fun _ _ => .error PwhError.Crypto

/-- A context whose backend reports every name available and accepts
inserts. -/
def availCtxA : AuthContext Unit :=
  ⟨⟨fun _ => .ok false, fun _ => .ok ()⟩⟩

/-- A context whose backend reports every name available and fails
inserts — distinguishable from `availCtxA` only through `insert_user`. -/
def availCtxB : AuthContext Unit :=
  ⟨⟨fun _ => .ok false, fun _ => .error ()⟩⟩

/-- A context whose backend reports every name taken and accepts
inserts. -/
def takenCtxA : AuthContext Unit :=
  ⟨⟨fun _ => .ok true, fun _ => .ok ()⟩⟩

/-- A context whose backend reports every name taken and fails
inserts — distinguishable from `takenCtxA` only through `insert_user`. -/
def takenCtxB : AuthContext Unit :=
  ⟨⟨fun _ => .ok true, fun _ => .error ()⟩⟩

/-- A context whose backend existence check itself errors. -/
def errCtx : AuthContext Unit :=
  ⟨⟨fun _ => .error (), fun _ => .ok ()⟩⟩

/-! ### Claim theorems -/

/-- C1: the claim says that for a name the backend reports available,
`create` hashes the password, hands the mutated record to the backend's
insert operation and returns success.  The code as written does the
opposite: on `user_exists = Ok(false)` (name available) it returns the
`user-exists` conflict response with the record untouched, and its body
contains no call to `insert_user` at all — the result is identical under
two backends that differ only in their insert behaviour. -/
theorem create_conflicts_on_available_name :
    Manage.create toyModel availCtxA 3 ⟨"alice", "s3cret!"⟩ =
      (⟨"alice", "s3cret!"⟩,
        .response ⟨StatusCode.CONFLICT,
          (ErrorReply.mk "user-exists" (userExistsMessage "alice")).toJson⟩) ∧
    Manage.create toyModel availCtxB 3 ⟨"alice", "s3cret!"⟩ =
      Manage.create toyModel availCtxA 3 ⟨"alice", "s3cret!"⟩ :=
  ⟨rfl, rfl⟩

/-- C2: the claim says that for a name the backend reports unavailable
(taken), `create` returns a Conflict outcome, never calls insert and
never mutates the password field.  The code as written proceeds on
`user_exists = Ok(true)`: it overwrites the password field with the hash
and falls through to the source's `Ok(())` stub instead of any conflict
response (insert is indeed never called — the body contains no such
call, as the insensitivity to the backend's insert behaviour shows). -/
theorem create_proceeds_on_taken_name :
    Manage.create toyModel takenCtxA 3 ⟨"alice", "s3cret!"⟩ =
      (⟨"alice", toyToString (strBytes "s3cret!", 3)⟩, CreateOutcome.done) ∧
    toyToString (strBytes "s3cret!", 3) ≠ "s3cret!" ∧
    Manage.create toyModel takenCtxB 3 ⟨"alice", "s3cret!"⟩ =
      Manage.create toyModel takenCtxA 3 ⟨"alice", "s3cret!"⟩ :=
  ⟨rfl, by decide, rfl⟩

/-- C3: hashing a plaintext and then checking that same plaintext against
the stored hash succeeds with `Ok(true)`, for every plaintext, every
fresh salt draw and every argon2 implementation satisfying the library
contract at these inputs (hashing succeeds, `PasswordHash::new` inverts
`to_string`, and verification accepts the hashed plaintext). -/
theorem check_password_roundtrip (m : Argon2Model) (salt : SaltString)
    (r : UserRecord) (h : m.Hash)
    (h1 : m.hash_password (strBytes r.password) salt = .ok h)
    (h2 : m.new_hash (m.to_string h) = .ok h)
    (h3 : m.verify_password (strBytes r.password) h = .ok ()) :
    (PasswordAuthExt.hash_password m salt r).2 = .ok () ∧
    PasswordAuthExt.check_password m
      (PasswordAuthExt.hash_password m salt r).1
      (strBytes r.password) = .ok true := by
  unfold PasswordAuthExt.hash_password PasswordAuthExt.check_password
  rw [h1]
  simp [h2, h3]

/-- Witness for C3 at a concrete record, salt and the toy argon2
stand-in. -/
theorem check_password_roundtrip_witness :
    (PasswordAuthExt.hash_password toyModel 3 ⟨"alice", "pw"⟩).2 = .ok () ∧
    PasswordAuthExt.check_password toyModel
      (PasswordAuthExt.hash_password toyModel 3 ⟨"alice", "pw"⟩).1
      (strBytes "pw") = .ok true :=
  check_password_roundtrip toyModel 3 ⟨"alice", "pw"⟩ (strBytes "pw", 3)
    rfl rfl rfl

/-- C4: with a well-formed stored hash, a legitimate mismatch (the
library's `Password` error) yields `Ok(false)` rather than an error, and
`check_password` returns `Err(HashVerify e)` exactly when the library's
verification failed with a fault `e` distinct from the mismatch
signal. -/
theorem check_password_wrong_password (m : Argon2Model) (r : UserRecord)
    (attempt : List Nat) (h : m.Hash)
    (hp : m.new_hash r.password = .ok h) :
    (m.verify_password attempt h = .error PwhError.Password →
      PasswordAuthExt.check_password m r attempt = .ok false) ∧
    (∀ e : PwhError,
      PasswordAuthExt.check_password m r attempt = .error (.HashVerify e) →
      e ≠ PwhError.Password ∧ m.verify_password attempt h = .error e) := by
  unfold PasswordAuthExt.check_password
  rw [hp]
  cases hverify : m.verify_password attempt h with
  | ok u =>
    refine ⟨fun hv => absurd hv (by simp), fun e he => ?_⟩
    simp [hverify] at he
  | error eBad =>
    refine ⟨fun hv => ?_, fun e he => ?_⟩
    · injection hv with hEq
      subst hEq
      simp [hverify]
    · cases eBad <;> simp [hverify] at he <;> subst he <;>
        exact ⟨by decide, rfl⟩

/-- Witness for C4: a wrong attempt against a concretely stored toy hash
comes back as `Ok(false)`. -/
theorem check_password_wrong_password_witness :
    PasswordAuthExt.check_password toyModel
      ⟨"alice", toyToString (strBytes "pw", 3)⟩ (strBytes "bad") = .ok false :=
  (check_password_wrong_password toyModel
    ⟨"alice", toyToString (strBytes "pw", 3)⟩ (strBytes "bad")
    (strBytes "pw", 3) rfl).1 rfl

/-- C5: when the stored hash string does not parse, `check_password`
returns `Err(HashParse)` for every attempt — in particular never a
mismatch result `Ok(b)` (and, the embedding being total, never a
panic). -/
theorem check_password_malformed_hash (m : Argon2Model) (r : UserRecord)
    (e : PwhError) (hp : m.new_hash r.password = .error e)
    (attempt : List Nat) :
    PasswordAuthExt.check_password m r attempt = .error (.HashParse e) ∧
    ∀ b : Bool, PasswordAuthExt.check_password m r attempt ≠ .ok b := by
  unfold PasswordAuthExt.check_password
  rw [hp]
  exact ⟨rfl, fun b hb => by cases hb⟩

/-- Witness for C5 on a concretely malformed stored string. -/
theorem check_password_malformed_hash_witness :
    PasswordAuthExt.check_password toyModel ⟨"alice", "garbage"⟩
      (strBytes "pw") = .error (.HashParse PwhError.PhcStringField) :=
  (check_password_malformed_hash toyModel ⟨"alice", "garbage"⟩
    PwhError.PhcStringField rfl (strBytes "pw")).1

/-- C6: both internal-fault paths of `create` — the backend exists-check
erroring and the hashing step erroring — produce the same constant
response, with identifier `internal-error`, the fixed message and status
500; in particular the caller-visible body is independent of the backend
error value, which never reaches the client. -/
theorem create_internal_faults_generic (m : Argon2Model) (E1 E2 : Type)
    (c1 : AuthContext E1) (c2 : AuthContext E2) (salt1 salt2 : SaltString)
    (i1 i2 : UserRecord) (e1 : E1) (e2 : PwhError)
    (h1 : c1.auth_connector.user_exists i1.name = .error e1)
    (h2 : c2.auth_connector.user_exists i2.name = .ok true)
    (h3 : m.hash_password (strBytes i2.password) salt2 = .error e2) :
    (Manage.create m c1 salt1 i1).2 =
      .response ⟨StatusCode.INTERNAL_SERVER_ERROR,
        (ErrorReply.mk "internal-error" "An internal error has occurred").toJson⟩ ∧
    (Manage.create m c2 salt2 i2).2 = (Manage.create m c1 salt1 i1).2 := by
  unfold Manage.create
  simp [h1, h2, h3, Manage.Error.into_response]

/-- Witness for C6: an erroring backend and a failing hasher at concrete
inputs both yield the constant internal-error response. -/
theorem create_internal_faults_generic_witness :
    (Manage.create failModel errCtx 3 ⟨"alice", "s3cret!"⟩).2 =
      .response ⟨StatusCode.INTERNAL_SERVER_ERROR,
        (ErrorReply.mk "internal-error" "An internal error has occurred").toJson⟩ ∧
    (Manage.create failModel takenCtxA 3 ⟨"alice", "s3cret!"⟩).2 =
      (Manage.create failModel errCtx 3 ⟨"alice", "s3cret!"⟩).2 :=
  create_internal_faults_generic failModel Unit Unit errCtx takenCtxA 3 3
    ⟨"alice", "s3cret!"⟩ ⟨"alice", "s3cret!"⟩ () PwhError.Crypto rfl rfl rfl

/-- C7: the failure responses carry stable machine-readable identifiers:
the conflict response has identifier `user-exists`, status 409 and a
message containing the conflicting user name; both internal-fault
responses have identifier `internal-error` and status 500. -/
theorem into_response_stable_identifiers (E : Type) (name user : String)
    (e : E) (e2 : PwhError) :
    (Manage.Error.UserExists (E := E) name).into_response =
      ⟨StatusCode.CONFLICT,
        (ErrorReply.mk "user-exists" (userExistsMessage name)).toJson⟩ ∧
    StatusCode.CONFLICT = 409 ∧
    (∃ pre post, userExistsMessage name = pre ++ name ++ post) ∧
    (Manage.Error.ConnectorUserExists user e).into_response =
      ⟨StatusCode.INTERNAL_SERVER_ERROR,
        (ErrorReply.mk "internal-error" "An internal error has occurred").toJson⟩ ∧
    (Manage.Error.PasswordHash (E := E) e2).into_response =
      ⟨StatusCode.INTERNAL_SERVER_ERROR,
        (ErrorReply.mk "internal-error" "An internal error has occurred").toJson⟩ ∧
    StatusCode.INTERNAL_SERVER_ERROR = 500 := by
  refine ⟨rfl, rfl,
    ⟨"A user with name " ++ quoteChar, quoteChar ++ " already exists", ?_⟩,
    rfl, rfl, rfl⟩
  simp [userExistsMessage, String.append_assoc]

/-- C8: hashing the same plaintext under two distinct fresh salt draws
produces two different stored strings — because the self-describing PHC
string determines the salt — and each of the two stored strings still
verifies the plaintext (hypotheses are the argon2 library contract at
these inputs, as in C3). -/
theorem hash_password_salt_uniqueness (m : Argon2Model) (r : UserRecord)
    (s1 s2 : SaltString) (h1 h2 : m.Hash)
    (hs : s1 ≠ s2)
    (e1 : m.hash_password (strBytes r.password) s1 = .ok h1)
    (e2 : m.hash_password (strBytes r.password) s2 = .ok h2)
    (henc : m.to_string h1 = m.to_string h2 → s1 = s2)
    (p1 : m.new_hash (m.to_string h1) = .ok h1)
    (v1 : m.verify_password (strBytes r.password) h1 = .ok ())
    (p2 : m.new_hash (m.to_string h2) = .ok h2)
    (v2 : m.verify_password (strBytes r.password) h2 = .ok ()) :
    (PasswordAuthExt.hash_password m s1 r).1.password ≠
      (PasswordAuthExt.hash_password m s2 r).1.password ∧
    PasswordAuthExt.check_password m (PasswordAuthExt.hash_password m s1 r).1
      (strBytes r.password) = .ok true ∧
    PasswordAuthExt.check_password m (PasswordAuthExt.hash_password m s2 r).1
      (strBytes r.password) = .ok true := by
  unfold PasswordAuthExt.hash_password PasswordAuthExt.check_password
  rw [e1, e2]
  refine ⟨fun hEq => hs (henc ?_), ?_, ?_⟩
  · simpa using hEq
  · simp [p1, v1]
  · simp [p2, v2]

/-- Witness for C8 at two concrete distinct salts and the toy argon2
stand-in. -/
theorem hash_password_salt_uniqueness_witness :
    (PasswordAuthExt.hash_password toyModel 3 ⟨"alice", "pw"⟩).1.password ≠
      (PasswordAuthExt.hash_password toyModel 5 ⟨"alice", "pw"⟩).1.password ∧
    PasswordAuthExt.check_password toyModel
      (PasswordAuthExt.hash_password toyModel 3 ⟨"alice", "pw"⟩).1
      (strBytes "pw") = .ok true ∧
    PasswordAuthExt.check_password toyModel
      (PasswordAuthExt.hash_password toyModel 5 ⟨"alice", "pw"⟩).1
      (strBytes "pw") = .ok true :=
  hash_password_salt_uniqueness toyModel ⟨"alice", "pw"⟩ 3 5
    (strBytes "pw", 3) (strBytes "pw", 5) (by decide) rfl rfl (by decide)
    rfl rfl rfl rfl

/-- C10: when the underlying hashing call fails, `hash_password` returns
the record unchanged alongside `Err(HashCompute)` — the password field is
only overwritten after a successful hash — and `create`'s hashing-failure
path likewise leaves the record unmutated, returning the internal-error
response. -/
theorem hash_password_error_preserves_record (m : Argon2Model)
    (salt : SaltString) (r : UserRecord) (e : PwhError)
    (hf : m.hash_password (strBytes r.password) salt = .error e) :
    PasswordAuthExt.hash_password m salt r = (r, .error (.HashCompute e)) ∧
    (∀ (E : Type) (c : AuthContext E),
      c.auth_connector.user_exists r.name = .ok true →
      Manage.create m c salt r =
        (r, .response (Manage.Error.PasswordHash (E := E) e).into_response)) := by
  constructor
  · unfold PasswordAuthExt.hash_password
    rw [hf]
  · intro E c hex
    unfold Manage.create
    simp [hex, hf]

/-- Witness for C10: the failing toy hasher at a concrete record leaves
the password field untouched, both in `hash_password` and in `create`. -/
theorem hash_password_error_preserves_record_witness :
    PasswordAuthExt.hash_password failModel 3 ⟨"alice", "pw"⟩ =
      (⟨"alice", "pw"⟩, .error (.HashCompute PwhError.Crypto)) ∧
    Manage.create failModel takenCtxA 3 ⟨"alice", "pw"⟩ =
      (⟨"alice", "pw"⟩,
        .response (Manage.Error.PasswordHash (E := Unit)
          PwhError.Crypto).into_response) :=
  ⟨(hash_password_error_preserves_record failModel 3 ⟨"alice", "pw"⟩
      PwhError.Crypto rfl).1,
   (hash_password_error_preserves_record failModel 3 ⟨"alice", "pw"⟩
      PwhError.Crypto rfl).2 Unit takenCtxA rfl⟩
